import Mathlib

/-!
Shallow embedding of `src/src/SFML/Graphics/Shader.cpp` (the desktop OpenGL
implementation, i.e. the `#ifndef SFML_OPENGL_ES` half of the file).

The OpenGL driver is modelled as a structure of oracle functions (`Backend`):
which extensions are present, what `glGetUniformLocation` answers, whether a
stage source compiles, whether a program links, and the combined texture-unit
limit.  The process-wide statics of the anonymous namespace are an explicit
`Globals` record, the relevant GL server state is a `GlState` record, and a
`Shader` record mirrors the four data members of `sf::Shader`.  Every
operation returns its result together with the updated state and the ordered
list of observable events it performs (GL calls and `sf::err()` diagnostic
lines), so that statements about "no backend query", "queried at most once
per process" and call ordering can be made.

Floating-point values are carried opaquely as rationals: no claim below
depends on float arithmetic, the values are only stored and replayed.
-/

namespace SfmlShader

/-- A non-owning reference to a caller-owned texture resource (`const Texture*`),
identified opaquely by a number. -/
abbrev Texture := Nat

/-- GLfloat values, carried exactly; IEEE rounding is irrelevant to the claims. -/
abbrev GlFloat := Rat

/-- The three shader stages (`GLEXT_GL_VERTEX_SHADER` etc.). -/
inductive StageKind
  | vertex
  | geometry
  | fragment
deriving DecidableEq

/-- Modelled from the spec: the `Shader::Type` enum lives in the header, which is
not part of src.  Its values must be distinct single-bit masks, because
`Shader::compile` builds `shadersToUse` by or-ing them and
`Shader::isAvailable` tests `shaderTypes & Vertex` and so on. -/
def shaderTypeVertex : Nat := 1

/-- Bit value of `Shader::Geometry` (see `shaderTypeVertex`). -/
def shaderTypeGeometry : Nat := 2

/-- Bit value of `Shader::Fragment` (see `shaderTypeVertex`). -/
def shaderTypeFragment : Nat := 4

/-- The diagnostic lines written to `sf::err()` by Shader.cpp, abstracted to
their identity (which message, about which stage or name). -/
inductive ErrMsg
  | capabilityCompile
  | capabilityBind
  | compileFailed (stage : StageKind)
  | linkFailed
  | textureUnitsExceeded (name : String)
  | paramNotFound (name : String)
deriving DecidableEq

/-- Observable events: GL calls issued and diagnostic lines emitted, in order. -/
inductive Event
  | errLine (msg : ErrMsg)
  | getIntegervMaxUnits
  | queryUniformLocation (program : Nat) (name : String)
  | createProgram (handle : Nat)
  | createShader (stage : StageKind) (handle : Nat)
  | shaderSource (handle : Nat) (text : String)
  | attachObject (program : Nat) (shader : Nat)
  | deleteObject (handle : Nat)
  | useProgram (handle : Nat)
  | getHandleProgramObject
  | uniform1f (location : Int) (x : GlFloat)
  | uniform2f (location : Int) (x y : GlFloat)
  | uniform3f (location : Int) (x y z : GlFloat)
  | uniform4f (location : Int) (x y z w : GlFloat)
  | uniformMatrix4fv (location : Int) (matrix : List GlFloat)
  | uniform1i (location : Int) (v : Int)
  | activeTexture (unit : Nat)
  | textureBind (texture : Texture)
  | linkProgram (handle : Nat)
  | glFlush
  | capabilityProbe
deriving DecidableEq

/-- The OpenGL driver, as a deterministic oracle. -/
structure Backend where
  multitexture : Bool
  shadingLanguage100 : Bool
  shaderObjects : Bool
  vertexShader : Bool
  fragmentShader : Bool
  geometryShader4 : Bool
  maxCombinedTextureImageUnits : Int
  getUniformLocation : Nat → String → Int
  compileOk : StageKind → String → Bool
  linkOk : Option String → Option String → Option String → Bool

/-- The process-wide statics of Shader.cpp's anonymous namespace: the
availability flags together with the `static bool available` initialization
marker inside `isAvailable`, and the memoized `static GLint maxUnits` inside
`getMaxTextureUnits`. -/
structure Globals where
  availInit : Bool
  vertexShaderAvailable : Bool
  fragmentShaderAvailable : Bool
  geometryShaderAvailable : Bool
  maxUnitsCache : Option Int
deriving DecidableEq

/-- Process start state: statics not yet initialized, flags default to false. -/
def Globals.initial : Globals :=
  { availInit := false
    vertexShaderAvailable := false
    fragmentShaderAvailable := false
    geometryShaderAvailable := false
    maxUnitsCache := none }

/-- The GL server state the embedding tracks: the program currently in use
(`glGetHandle(GLEXT_GL_PROGRAM_OBJECT)` reads it, `glUseProgramObject` writes
it; 0 means none), the active texture unit, and a counter supplying fresh
nonzero object handles. -/
structure GlState where
  activeProgram : Nat
  activeTextureUnit : Nat
  nextHandle : Nat
deriving DecidableEq

/-- Allocate a fresh (hence nonzero) backend object handle. -/
def freshHandle (gl : GlState) : Nat × GlState :=
  (gl.nextHandle + 1, { gl with nextHandle := gl.nextHandle + 1 })

/-- The four data members of `sf::Shader`.  `m_textures` is a
`std::map<int, const Texture*>`: a list of key-value pairs kept sorted by key,
and `m_params` is the name-to-location cache (`std::map<std::string, int>`),
as an association list. -/
structure Shader where
  m_shaderProgram : Nat
  m_currentTexture : Int
  m_textures : List (Int × Texture)
  m_params : List (String × Int)
deriving DecidableEq

/-- The default-constructed shader (`Shader::Shader()`). -/
def Shader.new : Shader :=
  { m_shaderProgram := 0
    m_currentTexture := -1
    m_textures := []
    m_params := [] }

/-- `getNativeHandle`: the raw backend program identifier, 0 when no program. -/
def getNativeHandle (s : Shader) : Nat :=
  s.m_shaderProgram

/-- Well-formedness of the `std::map` model: keys strictly increasing. -/
def tableSorted (t : List (Int × Texture)) : Prop :=
  List.Pairwise (· < ·) (t.map Prod.fst)

/-- `m_textures[location] = &texture` on the `std::map` model: replace the
entry if the key is present, otherwise insert at the sorted position. -/
def tableInsert : List (Int × Texture) → Int → Texture → List (Int × Texture)
  | [], location, texture => [(location, texture)]
  | (k, v) :: rest, location, texture =>
    if location < k then (location, texture) :: (k, v) :: rest
    else if location = k then (location, texture) :: rest
    else (k, v) :: tableInsert rest location texture

/-- `static_cast<std::size_t>(maxUnits)` on a 64-bit size_t: conversion of a
(possibly negative) GLint to an unsigned 64-bit value. -/
def sizeTOfGlint (x : Int) : Nat :=
  (x % (2 ^ 64)).toNat

/-- `checkShadersAvailable` (anonymous namespace): queries the extension set
and writes the three stage-availability flags; vertex and fragment share the
one combined `available` value, geometry is `GLEXT_geometry_shader4` alone. -/
def checkShadersAvailable (be : Backend) (g : Globals) : Bool × Globals :=
  let available := be.multitexture && be.shadingLanguage100 && be.shaderObjects &&
                   be.vertexShader && be.fragmentShader
  (available,
   { g with
      vertexShaderAvailable := available
      fragmentShaderAvailable := available
      geometryShaderAvailable := be.geometryShader4 })

/-- `Shader::isAvailable(int shaderTypes)`: under the lock, the function-local
static runs `checkShadersAvailable` exactly once per process, then each
requested stage bit is tested against its flag. -/
def isAvailable (be : Backend) (shaderTypes : Nat) (g : Globals) :
    Bool × Globals × List Event :=
  let init : Globals × List Event :=
    if g.availInit then (g, [])
    else ({ (checkShadersAvailable be g).2 with availInit := true },
          [Event.capabilityProbe])
  let g := init.1
  let probeEvents := init.2
  if shaderTypes &&& shaderTypeVertex ≠ 0 ∧ g.vertexShaderAvailable = false then
    (false, g, probeEvents)
  else if shaderTypes &&& shaderTypeFragment ≠ 0 ∧ g.fragmentShaderAvailable = false then
    (false, g, probeEvents)
  else if shaderTypes &&& shaderTypeGeometry ≠ 0 ∧ g.geometryShaderAvailable = false then
    (false, g, probeEvents)
  else
    (true, g, probeEvents)

/-- `getMaxTextureUnits` (anonymous namespace): the function-local static
queries `GL_MAX_COMBINED_TEXTURE_IMAGE_UNITS` once per process and memoizes. -/
def getMaxTextureUnits (be : Backend) (g : Globals) : Int × Globals × List Event :=
  match g.maxUnitsCache with
  | some v => (v, g, [])
  | none =>
    (be.maxCombinedTextureImageUnits,
     { g with maxUnitsCache := some be.maxCombinedTextureImageUnits },
     [Event.getIntegervMaxUnits])

/-- `Shader::getParamLocation`: cache hit returns the stored location with no
GL traffic; on a miss the backend is queried once, the answer is cached found
or not, and a warning line is emitted only in the not-found case. -/
def getParamLocation (be : Backend) (s : Shader) (name : String) :
    Int × Shader × List Event :=
  match s.m_params.lookup name with
  | some location => (location, s, [])
  | none =>
    let location := be.getUniformLocation s.m_shaderProgram name
    (location,
     { s with m_params := (name, location) :: s.m_params },
     Event.queryUniformLocation s.m_shaderProgram name ::
       (if location = -1 then [Event.errLine (ErrMsg.paramNotFound name)] else []))

/-- `Shader::setParameter(const std::string&, float)`. -/
def setParameterFloat (be : Backend) (s : Shader) (gl : GlState)
    (name : String) (x : GlFloat) : Shader × GlState × List Event :=
  if s.m_shaderProgram ≠ 0 then
    let program := gl.activeProgram
    let gl := { gl with activeProgram := s.m_shaderProgram }
    let res := getParamLocation be s name
    let writeEvents :=
      if res.1 ≠ -1 then [Event.uniform1f res.1 x] else []
    let gl := { gl with activeProgram := program }
    (res.2.1, gl,
     Event.getHandleProgramObject :: Event.useProgram s.m_shaderProgram ::
       (res.2.2 ++ writeEvents ++ [Event.useProgram program]))
  else
    (s, gl, [])

/-- `Shader::setParameter(const std::string&, float, float)`. -/
def setParameterFloat2 (be : Backend) (s : Shader) (gl : GlState)
    (name : String) (x y : GlFloat) : Shader × GlState × List Event :=
  if s.m_shaderProgram ≠ 0 then
    let program := gl.activeProgram
    let gl := { gl with activeProgram := s.m_shaderProgram }
    let res := getParamLocation be s name
    let writeEvents :=
      if res.1 ≠ -1 then [Event.uniform2f res.1 x y] else []
    let gl := { gl with activeProgram := program }
    (res.2.1, gl,
     Event.getHandleProgramObject :: Event.useProgram s.m_shaderProgram ::
       (res.2.2 ++ writeEvents ++ [Event.useProgram program]))
  else
    (s, gl, [])

/-- `Shader::setParameter(const std::string&, float, float, float)`. -/
def setParameterFloat3 (be : Backend) (s : Shader) (gl : GlState)
    (name : String) (x y z : GlFloat) : Shader × GlState × List Event :=
  if s.m_shaderProgram ≠ 0 then
    let program := gl.activeProgram
    let gl := { gl with activeProgram := s.m_shaderProgram }
    let res := getParamLocation be s name
    let writeEvents :=
      if res.1 ≠ -1 then [Event.uniform3f res.1 x y z] else []
    let gl := { gl with activeProgram := program }
    (res.2.1, gl,
     Event.getHandleProgramObject :: Event.useProgram s.m_shaderProgram ::
       (res.2.2 ++ writeEvents ++ [Event.useProgram program]))
  else
    (s, gl, [])

/-- `Shader::setParameter(const std::string&, float, float, float, float)`. -/
def setParameterFloat4 (be : Backend) (s : Shader) (gl : GlState)
    (name : String) (x y z w : GlFloat) : Shader × GlState × List Event :=
  if s.m_shaderProgram ≠ 0 then
    let program := gl.activeProgram
    let gl := { gl with activeProgram := s.m_shaderProgram }
    let res := getParamLocation be s name
    let writeEvents :=
      if res.1 ≠ -1 then [Event.uniform4f res.1 x y z w] else []
    let gl := { gl with activeProgram := program }
    (res.2.1, gl,
     Event.getHandleProgramObject :: Event.useProgram s.m_shaderProgram ::
       (res.2.2 ++ writeEvents ++ [Event.useProgram program]))
  else
    (s, gl, [])

/-- `sf::Vector2f`, a plain data carrier. -/
structure Vector2f where
  x : GlFloat
  y : GlFloat

/-- `sf::Vector3f`, a plain data carrier. -/
structure Vector3f where
  x : GlFloat
  y : GlFloat
  z : GlFloat

/-- `sf::Color`, four 8-bit channels. -/
structure Color where
  r : Nat
  g : Nat
  b : Nat
  a : Nat

/-- `sf::Transform`, carried only through its `getMatrix()` column-major data. -/
structure Transform where
  matrix : List GlFloat

/-- `Shader::setParameter(const std::string&, const Vector2f&)`. -/
def setParameterVector2 (be : Backend) (s : Shader) (gl : GlState)
    (name : String) (v : Vector2f) : Shader × GlState × List Event :=
  setParameterFloat2 be s gl name v.x v.y

/-- `Shader::setParameter(const std::string&, const Vector3f&)`. -/
def setParameterVector3 (be : Backend) (s : Shader) (gl : GlState)
    (name : String) (v : Vector3f) : Shader × GlState × List Event :=
  setParameterFloat3 be s gl name v.x v.y v.z

/-- `Shader::setParameter(const std::string&, const Color&)`: channels are
normalized from 0-255 to 0-1 and handed to the four-float setter. -/
def setParameterColor (be : Backend) (s : Shader) (gl : GlState)
    (name : String) (color : Color) : Shader × GlState × List Event :=
  setParameterFloat4 be s gl name
    ((color.r : GlFloat) / 255) ((color.g : GlFloat) / 255)
    ((color.b : GlFloat) / 255) ((color.a : GlFloat) / 255)

/-- `Shader::setParameter(const std::string&, const sf::Transform&)`. -/
def setParameterTransform (be : Backend) (s : Shader) (gl : GlState)
    (name : String) (transform : Transform) : Shader × GlState × List Event :=
  if s.m_shaderProgram ≠ 0 then
    let program := gl.activeProgram
    let gl := { gl with activeProgram := s.m_shaderProgram }
    let res := getParamLocation be s name
    let writeEvents :=
      if res.1 ≠ -1 then [Event.uniformMatrix4fv res.1 transform.matrix] else []
    let gl := { gl with activeProgram := program }
    (res.2.1, gl,
     Event.getHandleProgramObject :: Event.useProgram s.m_shaderProgram ::
       (res.2.2 ++ writeEvents ++ [Event.useProgram program]))
  else
    (s, gl, [])

/-- `Shader::setParameter(const std::string&, const Texture&)`: resolve the
location; on a fresh location, insert only while `size() + 1` stays strictly
below the (memoized) combined texture-unit limit, else report and reject; on
a known location, overwrite the stored reference. -/
def setParameterTexture (be : Backend) (s : Shader) (g : Globals)
    (name : String) (texture : Texture) : Shader × Globals × List Event :=
  if s.m_shaderProgram ≠ 0 then
    let res := getParamLocation be s name
    let location := res.1
    let s := res.2.1
    if location ≠ -1 then
      match s.m_textures.lookup location with
      | none =>
        let mres := getMaxTextureUnits be g
        let maxUnits := mres.1
        let g := mres.2.1
        if s.m_textures.length + 1 ≥ sizeTOfGlint maxUnits then
          (s, g, res.2.2 ++ mres.2.2 ++ [Event.errLine (ErrMsg.textureUnitsExceeded name)])
        else
          ({ s with m_textures := tableInsert s.m_textures location texture }, g,
           res.2.2 ++ mres.2.2)
      | some _ =>
        ({ s with m_textures := tableInsert s.m_textures location texture }, g, res.2.2)
    else
      (s, g, res.2.2)
  else
    (s, g, [])

/-- `Shader::setParameter(const std::string&, CurrentTextureType)`: stores the
resolved location in the sentinel member. -/
def setParameterCurrentTexture (be : Backend) (s : Shader) (name : String) :
    Shader × List Event :=
  if s.m_shaderProgram ≠ 0 then
    let res := getParamLocation be s name
    ({ res.2.1 with m_currentTexture := res.1 }, res.2.2)
  else
    (s, [])

/-- The loop body of `Shader::bindTextures`: the i-th map entry (0-based,
`std::map` iterates in increasing key order) has its location assigned texture
unit i+1, the unit made active and the referenced texture bound to it. -/
def bindTexturesLoop : List (Int × Texture) → Nat → List Event
  | [], _ => []
  | (location, texture) :: rest, i =>
    Event.uniform1i location (Int.ofNat (i + 1)) ::
      Event.activeTexture (i + 1) ::
      Event.textureBind texture ::
      bindTexturesLoop rest (i + 1)

/-- `Shader::bindTextures`: run the loop, then leave texture unit 0 active. -/
def bindTextures (s : Shader) (gl : GlState) : GlState × List Event :=
  ({ gl with activeTextureUnit := 0 },
   bindTexturesLoop s.m_textures 0 ++ [Event.activeTexture 0])

/-- Modelled from the spec: `Shader::bind` calls `isAvailable()` with the
header's default argument, and the header is not part of src; the spec says
bind re-checks availability of the basic pipeline, whose vertex and fragment
stages share one combined flag. -/
def defaultBindMask : Nat := shaderTypeVertex ||| shaderTypeFragment

/-- `Shader::bind(const Shader*)`: defensive availability re-check, then either
activate the program, replay the texture table and the current-texture
sentinel, or bind no program. -/
def bind (be : Backend) (shader : Option Shader) (g : Globals) (gl : GlState) :
    Globals × GlState × List Event :=
  let ares := isAvailable be defaultBindMask g
  let g := ares.2.1
  if ares.1 = false then
    (g, gl, ares.2.2 ++ [Event.errLine ErrMsg.capabilityBind])
  else
    match shader with
    | some s =>
      if s.m_shaderProgram ≠ 0 then
        let gl := { gl with activeProgram := s.m_shaderProgram }
        let bres := bindTextures s gl
        let sentinelEvents :=
          if s.m_currentTexture ≠ -1 then [Event.uniform1i s.m_currentTexture 0] else []
        (g, bres.1,
         ares.2.2 ++ Event.useProgram s.m_shaderProgram :: (bres.2 ++ sentinelEvents))
      else
        (g, { gl with activeProgram := 0 }, ares.2.2 ++ [Event.useProgram 0])
    | none =>
      (g, { gl with activeProgram := 0 }, ares.2.2 ++ [Event.useProgram 0])

/-- Modelled from the spec: `getDefaultVertexShaderCode` is declared in the
header, which is not part of src; it returns the source text of a fixed
default pass-through vertex stage.  Its exact text decides no claim, so it is
an opaque fixed string here. -/
def getDefaultVertexShaderCode : String := "default pass-through vertex shader"

/-- The `shadersToUse` mask computed at the top of `Shader::compile`. -/
def shadersToUse (vertexShaderCode geometryShaderCode fragmentShaderCode : Option String) : Nat :=
  (if vertexShaderCode.isSome then shaderTypeVertex else 0) |||
  (if geometryShaderCode.isSome then shaderTypeGeometry else 0) |||
  (if fragmentShaderCode.isSome then shaderTypeFragment else 0)

/-- One optional stage of `Shader::compile`: create the stage object, submit
the source, compile; on failure report, destroy the stage and the program and
abort; on success attach the stage to the program and release it. -/
def compileOptStage (be : Backend) (stage : StageKind) (code : Option String)
    (shaderProgram : Nat) (gl : GlState) : Bool × GlState × List Event :=
  match code with
  | none => (true, gl, [])
  | some text =>
    let hres := freshHandle gl
    let shaderObj := hres.1
    let gl := hres.2
    if be.compileOk stage text then
      (true, gl,
       [Event.createShader stage shaderObj, Event.shaderSource shaderObj text,
        Event.attachObject shaderProgram shaderObj, Event.deleteObject shaderObj])
    else
      (false, gl,
       [Event.createShader stage shaderObj, Event.shaderSource shaderObj text,
        Event.errLine (ErrMsg.compileFailed stage), Event.deleteObject shaderObj,
        Event.deleteObject shaderProgram])

/-- `Shader::compile`: capability check (early return, prior state untouched);
then destroy any previous program and reset the caches and sentinel; create a
program object; substitute the default vertex source when geometry is given
without vertex; compile and attach each supplied stage in vertex, geometry,
fragment order, aborting on the first failure; link, and on success store the
new handle and flush. -/
def compile (be : Backend) (s : Shader) (g : Globals) (gl : GlState)
    (vertexShaderCode geometryShaderCode fragmentShaderCode : Option String) :
    Bool × Shader × Globals × GlState × List Event :=
  let ares := isAvailable be (shadersToUse vertexShaderCode geometryShaderCode fragmentShaderCode) g
  let g := ares.2.1
  if ares.1 = false then
    (false, s, g, gl, ares.2.2 ++ [Event.errLine ErrMsg.capabilityCompile])
  else
    let destroyEvents :=
      if s.m_shaderProgram ≠ 0 then [Event.deleteObject s.m_shaderProgram] else []
    let s : Shader := Shader.new
    let pres := freshHandle gl
    let shaderProgram := pres.1
    let gl := pres.2
    let vertexShaderCode :=
      if vertexShaderCode.isNone ∧ geometryShaderCode.isSome then
        some getDefaultVertexShaderCode
      else vertexShaderCode
    let pre := ares.2.2 ++ destroyEvents ++ [Event.createProgram shaderProgram]
    match compileOptStage be StageKind.vertex vertexShaderCode shaderProgram gl with
    | (false, gl, e1) => (false, s, g, gl, pre ++ e1)
    | (true, gl, e1) =>
      match compileOptStage be StageKind.geometry geometryShaderCode shaderProgram gl with
      | (false, gl, e2) => (false, s, g, gl, pre ++ e1 ++ e2)
      | (true, gl, e2) =>
        match compileOptStage be StageKind.fragment fragmentShaderCode shaderProgram gl with
        | (false, gl, e3) => (false, s, g, gl, pre ++ e1 ++ e2 ++ e3)
        | (true, gl, e3) =>
          let linkEvents := pre ++ e1 ++ e2 ++ e3 ++ [Event.linkProgram shaderProgram]
          if be.linkOk vertexShaderCode geometryShaderCode fragmentShaderCode then
            (true, { s with m_shaderProgram := shaderProgram }, g, gl,
             linkEvents ++ [Event.glFlush])
          else
            (false, s, g, gl,
             linkEvents ++ [Event.errLine ErrMsg.linkFailed, Event.deleteObject shaderProgram])

/-- Fold of `setParameter(name, texture)` calls over a list of names, with one
fixed texture; used to state the texture-unit exhaustion claim. -/
def setTextures (be : Backend) (texture : Texture) :
    List String → Shader → Globals → Shader × Globals × List Event
  | [], s, g => (s, g, [])
  | name :: rest, s, g =>
    let r1 := setParameterTexture be s g name texture
    let r2 := setTextures be texture rest r1.1 r1.2.1
    (r2.1, r2.2.1, r1.2.2 ++ r2.2.2)

/-- Fold of `isAvailable` calls over a list of masks, keeping only the globals;
used to state process-wide determinism of the capability probe. -/
def applyAvailCalls (be : Backend) : List Nat → Globals → Globals
  | [], g => g
  | m :: rest, g => applyAvailCalls be rest (isAvailable be m g).2.1

/-- Events emitted by a fold of `isAvailable` calls. -/
def availCallsEvents (be : Backend) : List Nat → Globals → List Event
  | [], _ => []
  | m :: rest, g =>
    (isAvailable be m g).2.2 ++ availCallsEvents be rest (isAvailable be m g).2.1

/-! Concrete fixtures used by witnesses and counterexamples. -/

/-- A uniform-location oracle for tests: a few known names, one missing name. -/
def locW : Nat → String → Int :=
  fun _ name =>
    if name = "a" then 1
    else if name = "b" then 2
    else if name = "c" then 3
    else if name = "missing" then -1
    else 7

/-- A fully capable backend with 4 combined texture units. -/
def beGood : Backend :=
  { multitexture := true
    shadingLanguage100 := true
    shaderObjects := true
    vertexShader := true
    fragmentShader := true
    geometryShader4 := true
    maxCombinedTextureImageUnits := 4
    getUniformLocation := locW
    compileOk := fun _ _ => true
    linkOk := fun _ _ _ => true }

/-- A backend with no shader support at all. -/
def beNoCaps : Backend :=
  { beGood with
      multitexture := false
      shadingLanguage100 := false
      shaderObjects := false
      vertexShader := false
      fragmentShader := false
      geometryShader4 := false }

/-- A capable backend whose fragment stage never compiles. -/
def beBadFrag : Backend :=
  { beGood with
      compileOk := fun stage _ =>
        match stage with
        | StageKind.fragment => false
        | _ => true }

/-- A capable backend whose programs never link. -/
def beBadLink : Backend :=
  { beGood with linkOk := fun _ _ _ => false }

/-- A capable backend without geometry-stage support. -/
def beNoGeom : Backend :=
  { beGood with geometryShader4 := false }

/-- A GL state fixture. -/
def glW : GlState :=
  { activeProgram := 9
    activeTextureUnit := 0
    nextHandle := 10 }

/-- A shader fixture that holds a compiled program with handle 5. -/
def sW : Shader :=
  { m_shaderProgram := 5
    m_currentTexture := -1
    m_textures := []
    m_params := [] }

/-- A shader fixture with a previously linked program, a cached name and a
texture binding: the state a recompile must wipe or retain. -/
def sPrev : Shader :=
  { m_shaderProgram := 5
    m_currentTexture := 3
    m_textures := [(3, 8)]
    m_params := [("t", 3)] }

/-- A shader fixture holding one texture binding at location 1. -/
def sT : Shader :=
  { m_shaderProgram := 5
    m_currentTexture := -1
    m_textures := [(1, 4)]
    m_params := [] }

/-- A shader fixture with two texture bindings (locations 1 and 3) and the
current-texture sentinel set to location 4. -/
def s5 : Shader :=
  { m_shaderProgram := 5
    m_currentTexture := 4
    m_textures := [(1, 11), (3, 12)]
    m_params := [] }

/-- The globals right after the one-time capability probe has run. -/
def initGlobals (be : Backend) (g : Globals) : Globals :=
  { (checkShadersAvailable be g).2 with availInit := true }

/-- A backend with a combined texture-unit limit of 2. -/
def beC3 : Backend := { beGood with maxCombinedTextureImageUnits := 2 }

/-! ## C10 -/

/-- C10: every setParameter overload on a shader whose program handle is 0 is
a complete silent no-op: the instance state, GL state and process globals are
unchanged and no event (backend call or diagnostic line) is emitted. -/
theorem setParameter_silent_noop_when_no_program
    (be : Backend) (s : Shader) (gl : GlState) (g : Globals) (name : String)
    (x y z w : GlFloat) (v2 : Vector2f) (v3 : Vector3f) (c : Color)
    (t : Transform) (tex : Texture)
    (h : s.m_shaderProgram = 0) :
    setParameterFloat be s gl name x = (s, gl, []) ∧
    setParameterFloat2 be s gl name x y = (s, gl, []) ∧
    setParameterFloat3 be s gl name x y z = (s, gl, []) ∧
    setParameterFloat4 be s gl name x y z w = (s, gl, []) ∧
    setParameterVector2 be s gl name v2 = (s, gl, []) ∧
    setParameterVector3 be s gl name v3 = (s, gl, []) ∧
    setParameterColor be s gl name c = (s, gl, []) ∧
    setParameterTransform be s gl name t = (s, gl, []) ∧
    setParameterTexture be s g name tex = (s, g, []) ∧
    setParameterCurrentTexture be s name = (s, []) := by
  simp [setParameterFloat, setParameterFloat2, setParameterFloat3, setParameterFloat4,
        setParameterVector2, setParameterVector3, setParameterColor, setParameterTransform,
        setParameterTexture, setParameterCurrentTexture, h]

/-- C10 witness: a concrete uncompiled shader, with a concrete backend and
name, is left untouched by a texture-uniform set call. -/
theorem setParameter_silent_noop_when_no_program_witness :
    setParameterTexture beGood Shader.new Globals.initial "a" 3 =
      (Shader.new, Globals.initial, []) :=
  (setParameter_silent_noop_when_no_program beGood Shader.new glW Globals.initial "a"
    1 1 1 1 ⟨1, 1⟩ ⟨1, 1, 1⟩ ⟨255, 0, 0, 255⟩ ⟨[]⟩ 3 rfl).2.2.2.2.2.2.2.2.1

/-! ## C7 -/

/-- C7: every scalar, 2-, 3-, 4-component and matrix-valued setParameter call
on a shader with a compiled program restores the previously active program
before returning: the active program visible afterwards equals the one
visible before, whether or not the named uniform was found. -/
theorem setParameter_preserves_active_program
    (be : Backend) (s : Shader) (gl : GlState) (name : String)
    (x y z w : GlFloat) (v2 : Vector2f) (v3 : Vector3f) (c : Color) (t : Transform)
    (h : s.m_shaderProgram ≠ 0) :
    (setParameterFloat be s gl name x).2.1.activeProgram = gl.activeProgram ∧
    (setParameterFloat2 be s gl name x y).2.1.activeProgram = gl.activeProgram ∧
    (setParameterFloat3 be s gl name x y z).2.1.activeProgram = gl.activeProgram ∧
    (setParameterFloat4 be s gl name x y z w).2.1.activeProgram = gl.activeProgram ∧
    (setParameterVector2 be s gl name v2).2.1.activeProgram = gl.activeProgram ∧
    (setParameterVector3 be s gl name v3).2.1.activeProgram = gl.activeProgram ∧
    (setParameterColor be s gl name c).2.1.activeProgram = gl.activeProgram ∧
    (setParameterTransform be s gl name t).2.1.activeProgram = gl.activeProgram := by
  simp [setParameterFloat, setParameterFloat2, setParameterFloat3, setParameterFloat4,
        setParameterVector2, setParameterVector3, setParameterColor, setParameterTransform, h]

/-- C7 witness: a concrete scalar write on a compiled shader leaves the
concrete GL state's active program at its prior value 9. -/
theorem setParameter_preserves_active_program_witness :
    (setParameterFloat beGood sW glW "a" 2).2.1.activeProgram = 9 :=
  (setParameter_preserves_active_program beGood sW glW "a" 2 0 0 0 ⟨0, 0⟩ ⟨0, 0, 0⟩
    ⟨0, 0, 0, 0⟩ ⟨[]⟩ (by decide)).1

/-! ## C4 -/

/-- C4: getParamLocation is idempotent per compile generation: on a cache miss
the backend is queried exactly once, the result is cached found or not, a
diagnostic is emitted exactly when the location is not found, and the
subsequent call for the same name returns the identical cached value with no
further backend query and no further diagnostic. -/
theorem getParamLocation_idempotent
    (be : Backend) (s : Shader) (name : String)
    (h : s.m_params.lookup name = none) :
    (getParamLocation be s name).1 = be.getUniformLocation s.m_shaderProgram name ∧
    (getParamLocation be s name).2.1.m_params.lookup name =
      some (getParamLocation be s name).1 ∧
    (getParamLocation be s name).2.2.count
      (Event.queryUniformLocation s.m_shaderProgram name) = 1 ∧
    (getParamLocation be s name).2.2 =
      Event.queryUniformLocation s.m_shaderProgram name ::
        (if (getParamLocation be s name).1 = -1 then
          [Event.errLine (ErrMsg.paramNotFound name)] else []) ∧
    getParamLocation be (getParamLocation be s name).2.1 name =
      ((getParamLocation be s name).1, (getParamLocation be s name).2.1, []) := by
  by_cases hl : be.getUniformLocation s.m_shaderProgram name = -1 <;>
    simp [getParamLocation, h, hl, List.lookup, List.count_cons]

/-- C4 witness: the name "a", absent from the concrete shader's cache, is
resolved once and the second call returns the cached value with no events. -/
theorem getParamLocation_idempotent_witness :
    getParamLocation beGood (getParamLocation beGood sW "a").2.1 "a" =
      ((getParamLocation beGood sW "a").1, (getParamLocation beGood sW "a").2.1, []) :=
  (getParamLocation_idempotent beGood sW "a" rfl).2.2.2.2

/-! ## Compile pipeline: shared shape lemma -/

/-- Case analysis on `compile`: either the capability check failed and the
instance is returned untouched, or a stage or the link failed and the
instance is the freshly reset one, or it succeeded and holds the new
program handle. -/
theorem compile_result_cases (be : Backend) (s : Shader) (g : Globals) (gl : GlState)
    (vs gs fs : Option String) :
    ((isAvailable be (shadersToUse vs gs fs) g).1 = false ∧
      (compile be s g gl vs gs fs).1 = false ∧ (compile be s g gl vs gs fs).2.1 = s) ∨
    ((compile be s g gl vs gs fs).1 = false ∧
      (compile be s g gl vs gs fs).2.1 = Shader.new) ∨
    ((compile be s g gl vs gs fs).1 = true ∧
      (compile be s g gl vs gs fs).2.1 =
        { Shader.new with m_shaderProgram := gl.nextHandle + 1 }) := by
  simp only [compile, freshHandle]
  repeat' split
  all_goals
    first
    | exact Or.inr (Or.inr ⟨rfl, rfl⟩)
    | exact Or.inr (Or.inl ⟨rfl, rfl⟩)
    | exact Or.inl ⟨by assumption, rfl, rfl⟩

/-! ## C1 -/

/-- C1: a compile call that passes the capability check but fails afterwards
(at stage compilation or at linking) returns failure and leaves the instance
with no program: the native handle is 0, the uniform-location cache and the
texture-binding table are empty and the current-texture sentinel is unset,
whatever program the instance held before. -/
theorem compile_failure_leaves_no_program
    (be : Backend) (s : Shader) (g : Globals) (gl : GlState) (vs gs fs : Option String)
    (hAvail : (isAvailable be (shadersToUse vs gs fs) g).1 = true)
    (hFail : (compile be s g gl vs gs fs).1 = false) :
    getNativeHandle (compile be s g gl vs gs fs).2.1 = 0 ∧
    (compile be s g gl vs gs fs).2.1.m_params = [] ∧
    (compile be s g gl vs gs fs).2.1.m_textures = [] ∧
    (compile be s g gl vs gs fs).2.1.m_currentTexture = -1 := by
  rcases compile_result_cases be s g gl vs gs fs with
    ⟨hia, _, _⟩ | ⟨_, hs⟩ | ⟨htrue, _⟩
  · rw [hAvail] at hia; cases hia
  · rw [hs]; exact ⟨rfl, rfl, rfl, rfl⟩
  · rw [htrue] at hFail; cases hFail

/-- C1 witness: recompiling a concrete instance that held program 5 with
sources that fail to link leaves the native handle at 0. -/
theorem compile_failure_leaves_no_program_witness :
    getNativeHandle (compile beBadLink sPrev Globals.initial glW
      (some "v") none (some "f")).2.1 = 0 :=
  (compile_failure_leaves_no_program beBadLink sPrev Globals.initial glW
    (some "v") none (some "f") (by decide) (by decide)).1

/-! ## C2 (corrected) -/

/-- C2 counterexample: with a backend without shader support, recompiling a
concrete instance that holds program 5 fails the capability check and returns
the instance fully unchanged: the previous program is retained, not
destroyed, contradicting the claim that the instance is left in the
no-program state. -/
theorem compile_capability_failure_counterexample :
    (compile beNoCaps sPrev Globals.initial glW (some "v") none (some "f")).1 = false ∧
    (compile beNoCaps sPrev Globals.initial glW (some "v") none (some "f")).2.1 = sPrev ∧
    getNativeHandle
      (compile beNoCaps sPrev Globals.initial glW (some "v") none (some "f")).2.1 = 5 := by
  decide

/-- C2 amended: a compile call whose requested stage set is unsupported
reports a capability error and aborts BEFORE touching instance state: the
previously held program, uniform cache, texture bindings and sentinel are all
retained exactly as they were (the early return precedes the reset). -/
theorem compile_capability_failure_retains_state
    (be : Backend) (s : Shader) (g : Globals) (gl : GlState) (vs gs fs : Option String)
    (hna : (isAvailable be (shadersToUse vs gs fs) g).1 = false) :
    compile be s g gl vs gs fs =
      (false, s, (isAvailable be (shadersToUse vs gs fs) g).2.1, gl,
       (isAvailable be (shadersToUse vs gs fs) g).2.2 ++
         [Event.errLine ErrMsg.capabilityCompile]) := by
  simp [compile, hna]

/-- C2 amended witness: the concrete capability-failing recompile returns
failure with the instance, GL state and the diagnostic exactly as stated. -/
theorem compile_capability_failure_retains_state_witness :
    compile beNoCaps sPrev Globals.initial glW (some "v") none (some "f") =
      (false, sPrev,
       (isAvailable beNoCaps (shadersToUse (some "v") none (some "f"))
         Globals.initial).2.1, glW,
       (isAvailable beNoCaps (shadersToUse (some "v") none (some "f"))
         Globals.initial).2.2 ++ [Event.errLine ErrMsg.capabilityCompile]) :=
  compile_capability_failure_retains_state beNoCaps sPrev Globals.initial glW
    (some "v") none (some "f") (by decide)

/-- The capability check emits only its one-time probe event: nothing else,
whatever the mask and outcome. -/
theorem isAvailable_events (be : Backend) (m : Nat) (g : Globals) :
    (isAvailable be m g).2.2 =
      if g.availInit = true then [] else [Event.capabilityProbe] := by
  cases hg : g.availInit <;>
    simp only [isAvailable, hg, Bool.false_eq_true, if_false, if_true] <;>
    (repeat' split) <;> simp

/-! ## C6 -/

/-- C6: a compile call with a geometry source and no vertex source synthesizes
the default pass-through vertex stage (the vertex stage object is created and
fed exactly the default source text) and can succeed when geometry stages are
available; when geometry stages are reported unavailable the same call fails
with a capability error and no program object is ever created. -/
theorem compile_geometry_only_synthesizes_default_vertex
    (be : Backend) (s : Shader) (g : Globals) (gl : GlState) (code : String) :
    ((isAvailable be shaderTypeGeometry g).1 = true →
      be.compileOk StageKind.vertex getDefaultVertexShaderCode = true →
      be.compileOk StageKind.geometry code = true →
      be.linkOk (some getDefaultVertexShaderCode) (some code) none = true →
      (compile be s g gl none (some code) none).1 = true ∧
      getNativeHandle (compile be s g gl none (some code) none).2.1 ≠ 0 ∧
      Event.createShader StageKind.vertex (gl.nextHandle + 2) ∈
        (compile be s g gl none (some code) none).2.2.2.2 ∧
      Event.shaderSource (gl.nextHandle + 2) getDefaultVertexShaderCode ∈
        (compile be s g gl none (some code) none).2.2.2.2) ∧
    ((isAvailable be shaderTypeGeometry g).1 = false →
      (compile be s g gl none (some code) none).1 = false ∧
      (compile be s g gl none (some code) none).2.1 = s ∧
      Event.errLine ErrMsg.capabilityCompile ∈
        (compile be s g gl none (some code) none).2.2.2.2 ∧
      ∀ h, Event.createProgram h ∉ (compile be s g gl none (some code) none).2.2.2.2) := by
  have hmask : shadersToUse none (some code) none = shaderTypeGeometry := by
    simp [shadersToUse, shaderTypeGeometry]
  constructor
  · intro ha hv hg hl
    simp [compile, hmask, ha, hv, hg, hl, compileOptStage, freshHandle, getNativeHandle,
          Shader.new]
  · intro ha
    refine ⟨?_, ?_, ?_, ?_⟩ <;>
      simp [compile, hmask, ha, isAvailable_events]

/-- C6 witness: with the fully capable backend a concrete geometry-only
compile succeeds, and with geometry support absent the same call fails. -/
theorem compile_geometry_only_synthesizes_default_vertex_witness :
    (compile beGood sW Globals.initial glW none (some "g") none).1 = true ∧
    (compile beNoGeom sW Globals.initial glW none (some "g") none).1 = false :=
  ⟨((compile_geometry_only_synthesizes_default_vertex beGood sW Globals.initial glW "g").1
      (by decide) rfl rfl rfl).1,
   ((compile_geometry_only_synthesizes_default_vertex beNoGeom sW Globals.initial glW "g").2
      (by decide)).1⟩

/-! ## Texture table lemmas -/

/-- Unfolding equation: inserting below the head prepends. -/
theorem tableInsert_cons_lt {k0 : Int} {v0 : Texture} {rest : List (Int × Texture)}
    {k : Int} {v : Texture} (h1 : k < k0) :
    tableInsert ((k0, v0) :: rest) k v = (k, v) :: (k0, v0) :: rest := by
  simp [tableInsert, h1]

/-- Unfolding equation: inserting at the head key replaces the head. -/
theorem tableInsert_cons_eq {k0 : Int} {v0 : Texture} {rest : List (Int × Texture)}
    {v : Texture} :
    tableInsert ((k0, v0) :: rest) k0 v = (k0, v) :: rest := by
  simp [tableInsert]

/-- Unfolding equation: inserting above the head key recurses. -/
theorem tableInsert_cons_gt {k0 : Int} {v0 : Texture} {rest : List (Int × Texture)}
    {k : Int} {v : Texture} (h1 : ¬ k < k0) (h2 : ¬ k = k0) :
    tableInsert ((k0, v0) :: rest) k v = (k0, v0) :: tableInsert rest k v := by
  simp [tableInsert, h1, h2]

/-- Lookup skips a head entry with a different key. -/
theorem lookup_cons_ne {α β : Type} [BEq α] [LawfulBEq α] {k k0 : α} {v0 : β}
    {rest : List (α × β)} (h : ¬ k = k0) :
    ((k0, v0) :: rest).lookup k = rest.lookup k := by
  simp [List.lookup_cons, beq_eq_false_iff_ne.mpr h]

/-- A lookup hit means the key is present. -/
theorem lookup_some_mem_keys {t : List (Int × Texture)} {k : Int} {w : Texture}
    (h : t.lookup k = some w) : k ∈ t.map Prod.fst := by
  induction t with
  | nil => simp at h
  | cons hd rest ih =>
    obtain ⟨k0, v0⟩ := hd
    by_cases hk : k = k0
    · simp [hk]
    · rw [lookup_cons_ne hk] at h
      simp only [List.map_cons, List.mem_cons]
      exact Or.inr (ih h)

/-- `tableInsert` behaves as a pointwise map update under `lookup`. -/
theorem tableInsert_lookup (t : List (Int × Texture)) (k : Int) (v : Texture) (k' : Int) :
    (tableInsert t k v).lookup k' = if k' = k then some v else t.lookup k' := by
  induction t with
  | nil =>
    by_cases h : k' = k
    · subst h
      simp [tableInsert]
    · simp [tableInsert, lookup_cons_ne h, h]
  | cons hd rest ih =>
    obtain ⟨k0, v0⟩ := hd
    by_cases h1 : k < k0
    · rw [tableInsert_cons_lt h1]
      by_cases h : k' = k
      · subst h
        simp
      · simp [lookup_cons_ne h, h]
    · by_cases h2 : k = k0
      · subst h2
        rw [tableInsert_cons_eq]
        by_cases h : k' = k
        · subst h
          simp
        · simp [lookup_cons_ne h, h]
      · rw [tableInsert_cons_gt h1 h2]
        by_cases h : k' = k0
        · subst h
          simp [show ¬ (k' = k) from fun hh => h2 hh.symm]
        · rw [lookup_cons_ne h, ih]
          by_cases hk : k' = k
          · simp [hk]
          · simp [hk, lookup_cons_ne h]

/-- Every key of `tableInsert t k v` is a key of `t` or is `k`. -/
theorem tableInsert_keys_mem {t : List (Int × Texture)} {k : Int} {v : Texture} :
    ∀ x ∈ (tableInsert t k v).map Prod.fst, x ∈ t.map Prod.fst ∨ x = k := by
  induction t with
  | nil => simp [tableInsert]
  | cons hd rest ih =>
    obtain ⟨k0, v0⟩ := hd
    by_cases h1 : k < k0
    · rw [tableInsert_cons_lt h1]
      intro x hx
      rcases List.mem_cons.mp hx with h | h
      · exact Or.inr (by simpa using h)
      · exact Or.inl h
    · by_cases h2 : k = k0
      · subst h2
        rw [tableInsert_cons_eq]
        intro x hx
        rcases List.mem_cons.mp hx with h | h
        · exact Or.inr (by simpa using h)
        · exact Or.inl (by simp [h])
      · rw [tableInsert_cons_gt h1 h2]
        intro x hx
        rcases List.mem_cons.mp hx with h | h
        · exact Or.inl (by simp [h])
        · rcases ih x h with h' | h'
          · exact Or.inl (by simp [h'])
          · exact Or.inr h'

/-- `tableInsert` preserves the sorted-keys invariant of the `std::map` model. -/
theorem tableInsert_sorted {t : List (Int × Texture)} (k : Int) (v : Texture)
    (h : tableSorted t) : tableSorted (tableInsert t k v) := by
  induction t with
  | nil => simp [tableSorted, tableInsert]
  | cons hd rest ih =>
    obtain ⟨k0, v0⟩ := hd
    simp only [tableSorted, List.map_cons, List.pairwise_cons] at h
    obtain ⟨hk0, hrest⟩ := h
    by_cases h1 : k < k0
    · rw [tableInsert_cons_lt h1]
      simp only [tableSorted, List.map_cons, List.pairwise_cons]
      refine ⟨?_, hk0, hrest⟩
      intro x hx
      rcases List.mem_cons.mp hx with h' | h'
      · exact h' ▸ h1
      · exact lt_trans h1 (hk0 x h')
    · by_cases h2 : k = k0
      · subst h2
        rw [tableInsert_cons_eq]
        simp only [tableSorted, List.map_cons, List.pairwise_cons]
        exact ⟨hk0, hrest⟩
      · rw [tableInsert_cons_gt h1 h2]
        simp only [tableSorted, List.map_cons, List.pairwise_cons]
        refine ⟨?_, ih hrest⟩
        intro x hx
        rcases tableInsert_keys_mem x hx with h' | h'
        · exact hk0 x h'
        · subst h'
          exact lt_of_le_of_ne (not_lt.mp h1) (Ne.symm h2)

/-- On a sorted table, overwriting an existing key leaves the key list
unchanged. -/
theorem tableInsert_keys_replace {t : List (Int × Texture)} {k : Int} {v w : Texture}
    (hs : tableSorted t) (hmem : t.lookup k = some w) :
    (tableInsert t k v).map Prod.fst = t.map Prod.fst := by
  induction t with
  | nil => simp at hmem
  | cons hd rest ih =>
    obtain ⟨k0, v0⟩ := hd
    simp only [tableSorted, List.map_cons, List.pairwise_cons] at hs
    obtain ⟨hk0, hrest⟩ := hs
    by_cases h2 : k = k0
    · subst h2
      rw [tableInsert_cons_eq]
      simp
    · have hmem' : rest.lookup k = some w := by
        rwa [lookup_cons_ne h2] at hmem
      have hkmem : k ∈ rest.map Prod.fst := lookup_some_mem_keys hmem'
      have h1 : ¬ k < k0 := not_lt.mpr (le_of_lt (hk0 k hkmem))
      rw [tableInsert_cons_gt h1 h2]
      simp [ih hrest hmem']

/-- Inserting a fresh key grows the table by exactly one entry. -/
theorem tableInsert_length_new {t : List (Int × Texture)} {k : Int} (v : Texture)
    (h : t.lookup k = none) : (tableInsert t k v).length = t.length + 1 := by
  induction t with
  | nil => simp [tableInsert]
  | cons hd rest ih =>
    obtain ⟨k0, v0⟩ := hd
    have h2 : ¬ k = k0 := by
      intro hk
      subst hk
      rw [List.lookup_cons_self] at h
      cases h
    have h' : rest.lookup k = none := by
      rwa [lookup_cons_ne h2] at h
    by_cases h1 : k < k0
    · rw [tableInsert_cons_lt h1]
      simp
    · rw [tableInsert_cons_gt h1 h2]
      simp [ih h']

/-- The parameter-location resolution touches only the name cache: the
program handle, sentinel and texture table are untouched. -/
theorem getParamLocation_state (be : Backend) (s : Shader) (name : String) :
    (getParamLocation be s name).2.1.m_shaderProgram = s.m_shaderProgram ∧
    (getParamLocation be s name).2.1.m_currentTexture = s.m_currentTexture ∧
    (getParamLocation be s name).2.1.m_textures = s.m_textures := by
  cases h : s.m_params.lookup name <;> simp [getParamLocation, h]

/-! ## C8 -/

/-- C8: on a compiled shader, re-setting a texture uniform whose resolved
location is already present in the texture-binding table overwrites the
stored reference in place: the key list (hence the size) of the table is
unchanged, the entry for that location now holds the new texture, every
other entry is untouched, the globals are untouched, and the table remains a
well-formed map in which each location key maps to exactly one texture. -/
theorem setParameterTexture_overwrite_in_place
    (be : Backend) (s : Shader) (g : Globals) (name : String) (tex : Texture)
    (w : Texture)
    (hprog : s.m_shaderProgram ≠ 0)
    (hsorted : tableSorted s.m_textures)
    (hloc : (getParamLocation be s name).1 ≠ -1)
    (hfound : s.m_textures.lookup (getParamLocation be s name).1 = some w) :
    (setParameterTexture be s g name tex).2.1 = g ∧
    (setParameterTexture be s g name tex).1.m_textures.map Prod.fst =
      s.m_textures.map Prod.fst ∧
    (setParameterTexture be s g name tex).1.m_textures.length = s.m_textures.length ∧
    (setParameterTexture be s g name tex).1.m_textures.lookup
      (getParamLocation be s name).1 = some tex ∧
    (∀ k, k ≠ (getParamLocation be s name).1 →
      (setParameterTexture be s g name tex).1.m_textures.lookup k =
        s.m_textures.lookup k) ∧
    tableSorted (setParameterTexture be s g name tex).1.m_textures ∧
    ((setParameterTexture be s g name tex).1.m_textures.map Prod.fst).Nodup := by
  have hst := (getParamLocation_state be s name).2.2
  have hred : setParameterTexture be s g name tex =
      ({ (getParamLocation be s name).2.1 with
          m_textures := tableInsert s.m_textures (getParamLocation be s name).1 tex }, g,
       (getParamLocation be s name).2.2) := by
    simp only [setParameterTexture, hprog, hloc, hst, hfound, if_pos, if_true, ne_eq,
      not_false_eq_true, ite_true]
  rw [hred]
  refine ⟨rfl, ?_, ?_, ?_, ?_, ?_, ?_⟩
  · exact tableInsert_keys_replace hsorted hfound
  · have hk := congrArg List.length (tableInsert_keys_replace (v := tex) hsorted hfound)
    simpa using hk
  · rw [tableInsert_lookup]
    simp
  · intro k hk
    rw [tableInsert_lookup]
    simp [hk]
  · exact tableInsert_sorted _ _ hsorted
  · exact (tableInsert_sorted _ _ hsorted).nodup

/-- C8 witness: re-binding the name "a" (location 1) on the concrete shader
replaces the stored texture 4 by 9 without growing the table. -/
theorem setParameterTexture_overwrite_in_place_witness :
    (setParameterTexture beGood sT Globals.initial "a" 9).1.m_textures.lookup
      (getParamLocation beGood sT "a").1 = some 9 ∧
    (setParameterTexture beGood sT Globals.initial "a" 9).1.m_textures.length =
      sT.m_textures.length :=
  ⟨(setParameterTexture_overwrite_in_place beGood sT Globals.initial "a" 9 4
      (by decide) (by simp [tableSorted, sT]) (by decide) (by decide)).2.2.2.1,
   (setParameterTexture_overwrite_in_place beGood sT Globals.initial "a" 9 4
      (by decide) (by simp [tableSorted, sT]) (by decide) (by decide)).2.2.1⟩

/-! ## C5 -/

/-- The bind-time texture loop enumerates the table entries with texture
units numbered from one above the starting index. -/
theorem bindTexturesLoop_eq_enumFrom (entries : List (Int × Texture)) (i : Nat) :
    bindTexturesLoop entries i =
      (entries.enumFrom i).flatMap
        (fun p => [Event.uniform1i p.2.1 (Int.ofNat (p.1 + 1)),
                   Event.activeTexture (p.1 + 1),
                   Event.textureBind p.2.2]) := by
  induction entries generalizing i with
  | nil => simp [bindTexturesLoop]
  | cons hd rest ih =>
    obtain ⟨location, texture⟩ := hd
    simp [bindTexturesLoop, ih, List.enumFrom_cons]

/-- C5: activating a shader with a compiled program processes the texture
table in increasing location order — the i-th entry (0-based) has its
location assigned texture unit i+1 and its texture bound there — then the
sentinel location, when set, is assigned unit 0, and the active texture unit
ends up reset to 0. -/
theorem bind_assigns_units_in_location_order
    (be : Backend) (s : Shader) (g : Globals) (gl : GlState)
    (hprog : s.m_shaderProgram ≠ 0)
    (havail : (isAvailable be defaultBindMask g).1 = true)
    (hsorted : tableSorted s.m_textures) :
    (bind be (some s) g gl).2.2 =
      (isAvailable be defaultBindMask g).2.2 ++
        Event.useProgram s.m_shaderProgram ::
          ((s.m_textures.enum.flatMap
            (fun p => [Event.uniform1i p.2.1 (Int.ofNat (p.1 + 1)),
                       Event.activeTexture (p.1 + 1),
                       Event.textureBind p.2.2]) ++ [Event.activeTexture 0]) ++
            (if s.m_currentTexture ≠ -1 then [Event.uniform1i s.m_currentTexture 0]
             else [])) ∧
    (bind be (some s) g gl).2.1.activeTextureUnit = 0 ∧
    (∀ i j (hi : i < s.m_textures.length) (hj : j < s.m_textures.length), i < j →
      (s.m_textures[i]).1 < (s.m_textures[j]).1) := by
  refine ⟨?_, ?_, ?_⟩
  · simp only [bind, havail, Bool.true_eq_false, if_false, hprog, ne_eq,
      not_false_eq_true, ite_true, bindTextures]
    rw [bindTexturesLoop_eq_enumFrom]
    rfl
  · simp [bind, havail, hprog, bindTextures]
  · intro i j hi hj hij
    have h1 : i < (s.m_textures.map Prod.fst).length := by simpa using hi
    have h2 : j < (s.m_textures.map Prod.fst).length := by simpa using hj
    have hp := List.pairwise_iff_getElem.mp hsorted i j h1 h2 hij
    simpa using hp

/-- C5 witness: after binding the concrete two-texture shader the active
texture unit is back at 0. -/
theorem bind_assigns_units_in_location_order_witness :
    (bind beGood (some s5) Globals.initial glW).2.1.activeTextureUnit = 0 :=
  (bind_assigns_units_in_location_order beGood s5 Globals.initial glW
    (by decide) (by decide) (by simp [tableSorted, s5])).2.1

/-! ## C9 -/

/-- Once initialized, `isAvailable` never changes the globals again. -/
theorem isAvailable_globals_of_init {be : Backend} {m : Nat} {g : Globals}
    (h : g.availInit = true) : (isAvailable be m g).2.1 = g := by
  simp only [isAvailable, h, if_true]
  repeat' split
  all_goals rfl

/-- The first call initializes the globals to `initGlobals`. -/
theorem isAvailable_globals_of_uninit {be : Backend} {m : Nat} {g : Globals}
    (h : g.availInit = false) : (isAvailable be m g).2.1 = initGlobals be g := by
  simp only [isAvailable, h, Bool.false_eq_true, if_false, initGlobals]
  repeat' split
  all_goals rfl

/-- The answer of the very first call equals the answer computed on the
already-initialized globals: initialization happens before the mask test. -/
theorem isAvailable_fst_init_eq {be : Backend} {m : Nat} {g : Globals}
    (h : g.availInit = false) :
    (isAvailable be m g).1 = (isAvailable be m (initGlobals be g)).1 := by
  simp only [isAvailable, h, Bool.false_eq_true, if_false, initGlobals]
  (repeat' split) <;> simp_all

/-- Folding calls over initialized globals is the identity. -/
theorem applyAvailCalls_of_init {be : Backend} {g : Globals} (calls : List Nat)
    (h : g.availInit = true) : applyAvailCalls be calls g = g := by
  induction calls with
  | nil => rfl
  | cons m rest ih => simp [applyAvailCalls, isAvailable_globals_of_init h, ih]

/-- From process start, the globals after any call sequence are either still
uninitialized (no call yet) or exactly the once-initialized ones. -/
theorem applyAvailCalls_initial (be : Backend) (calls : List Nat) :
    applyAvailCalls be calls Globals.initial =
      if calls.isEmpty then Globals.initial else initGlobals be Globals.initial := by
  cases calls with
  | nil => rfl
  | cons m rest =>
    have h0 : (Globals.initial).availInit = false := rfl
    have h1 : (initGlobals be Globals.initial).availInit = true := rfl
    simp [applyAvailCalls, isAvailable_globals_of_uninit h0,
      applyAvailCalls_of_init rest h1]

/-- Initialized globals produce no further events at all. -/
theorem availCallsEvents_of_init {be : Backend} {g : Globals} (calls : List Nat)
    (h : g.availInit = true) : availCallsEvents be calls g = [] := by
  induction calls with
  | nil => rfl
  | cons m rest ih =>
    simp [availCallsEvents, isAvailable_events, h, isAvailable_globals_of_init h, ih]

/-- C9: the capability probe is deterministic within a process: the flags are
computed exactly once, on the first invocation (one probe event in any
nonempty call sequence, none after), every later call with the same mask
returns the same answer as the first regardless of the call sequence in
between, vertex and fragment availability are always equal (one combined
flag), and geometry availability equals the separately queried geometry
capability. -/
theorem isAvailable_process_deterministic (be : Backend) (calls : List Nat) (m : Nat) :
    (isAvailable be m (applyAvailCalls be calls Globals.initial)).1 =
      (isAvailable be m Globals.initial).1 ∧
    ((availCallsEvents be calls Globals.initial).count Event.capabilityProbe =
      if calls.isEmpty then 0 else 1) ∧
    (applyAvailCalls be calls Globals.initial).vertexShaderAvailable =
      (applyAvailCalls be calls Globals.initial).fragmentShaderAvailable ∧
    (calls.isEmpty = false →
      (applyAvailCalls be calls Globals.initial).geometryShaderAvailable =
        be.geometryShader4 ∧
      (applyAvailCalls be calls Globals.initial).vertexShaderAvailable =
        (be.multitexture && be.shadingLanguage100 && be.shaderObjects &&
         be.vertexShader && be.fragmentShader)) := by
  have h0 : (Globals.initial).availInit = false := rfl
  refine ⟨?_, ?_, ?_, ?_⟩
  · rw [applyAvailCalls_initial]
    by_cases hc : calls.isEmpty
    · simp [hc]
    · simp only [hc, if_false]
      exact (isAvailable_fst_init_eq h0).symm
  · cases calls with
    | nil => rfl
    | cons m0 rest =>
      have h1 : (initGlobals be Globals.initial).availInit = true := rfl
      simp [availCallsEvents, isAvailable_events, isAvailable_globals_of_uninit h0,
        availCallsEvents_of_init rest h1, h0]
  · rw [applyAvailCalls_initial]
    by_cases hc : calls.isEmpty <;> simp [hc, initGlobals, checkShadersAvailable,
      Globals.initial]
  · intro hc
    rw [applyAvailCalls_initial]
    simp [hc, initGlobals, checkShadersAvailable]

/-- C9 witness: with the concrete backend, a later call answers as the first,
and after one call the geometry flag equals the backend capability. -/
theorem isAvailable_process_deterministic_witness :
    (isAvailable beGood 7 (applyAvailCalls beGood [5] Globals.initial)).1 =
      (isAvailable beGood 7 Globals.initial).1 ∧
    (applyAvailCalls beGood [5] Globals.initial).geometryShaderAvailable =
      beGood.geometryShader4 :=
  ⟨(isAvailable_process_deterministic beGood [5] 7).1,
   ((isAvailable_process_deterministic beGood [5] 7).2.2.2 rfl).1⟩

/-! ## C3: step lemmas -/

/-- The memoized limit, when already cached, is returned with no GL traffic. -/
theorem getMaxTextureUnits_cached {be : Backend} {g : Globals}
    (h : g.maxUnitsCache = some be.maxCombinedTextureImageUnits) :
    getMaxTextureUnits be g = (be.maxCombinedTextureImageUnits, g, []) := by
  simp [getMaxTextureUnits, h]

/-- The first limit query hits the backend once and fills the cache. -/
theorem getMaxTextureUnits_first {be : Backend} {g : Globals}
    (h : g.maxUnitsCache = none) :
    getMaxTextureUnits be g =
      (be.maxCombinedTextureImageUnits,
       { g with maxUnitsCache := some be.maxCombinedTextureImageUnits },
       [Event.getIntegervMaxUnits]) := by
  simp [getMaxTextureUnits, h]

/-- Resolution of an uncached name that the backend knows: one query, the
location cached, no diagnostic. -/
theorem getParamLocation_miss (be : Backend) (s : Shader) (nm : String)
    (hmiss : s.m_params.lookup nm = none)
    (hvalid : be.getUniformLocation s.m_shaderProgram nm ≠ -1) :
    getParamLocation be s nm =
      (be.getUniformLocation s.m_shaderProgram nm,
       { s with m_params :=
          (nm, be.getUniformLocation s.m_shaderProgram nm) :: s.m_params },
       [Event.queryUniformLocation s.m_shaderProgram nm]) := by
  simp [getParamLocation, hmiss, hvalid]

/-- A texture-uniform set call on a fresh valid location with room left in
the unit budget: the binding is inserted and the name cached. -/
theorem setParameterTexture_insert (be : Backend) (s : Shader) (g : Globals)
    (nm : String) (tex : Texture)
    (hprog : s.m_shaderProgram ≠ 0)
    (hmiss : s.m_params.lookup nm = none)
    (hvalid : be.getUniformLocation s.m_shaderProgram nm ≠ -1)
    (hnewloc : s.m_textures.lookup (be.getUniformLocation s.m_shaderProgram nm) = none)
    (hfst : (getMaxTextureUnits be g).1 = be.maxCombinedTextureImageUnits)
    (hroom : s.m_textures.length + 1 < sizeTOfGlint be.maxCombinedTextureImageUnits) :
    setParameterTexture be s g nm tex =
      ({ s with
          m_params := (nm, be.getUniformLocation s.m_shaderProgram nm) :: s.m_params
          m_textures := tableInsert s.m_textures
            (be.getUniformLocation s.m_shaderProgram nm) tex },
       (getMaxTextureUnits be g).2.1,
       Event.queryUniformLocation s.m_shaderProgram nm ::
         (getMaxTextureUnits be g).2.2) := by
  have hng : ¬ (s.m_textures.length + 1 ≥ sizeTOfGlint be.maxCombinedTextureImageUnits) :=
    not_le.mpr hroom
  simp [setParameterTexture, getParamLocation_miss be s nm hmiss hvalid, hprog, hvalid,
    hnewloc, hfst, hng]

/-- A texture-uniform set call on a fresh valid location with the unit budget
exhausted: the error is reported and the binding rejected, but the freshly
resolved name still enters the location cache. -/
theorem setParameterTexture_reject (be : Backend) (s : Shader) (g : Globals)
    (nm : String) (tex : Texture)
    (hprog : s.m_shaderProgram ≠ 0)
    (hmiss : s.m_params.lookup nm = none)
    (hvalid : be.getUniformLocation s.m_shaderProgram nm ≠ -1)
    (hnewloc : s.m_textures.lookup (be.getUniformLocation s.m_shaderProgram nm) = none)
    (hfst : (getMaxTextureUnits be g).1 = be.maxCombinedTextureImageUnits)
    (hfull : s.m_textures.length + 1 ≥ sizeTOfGlint be.maxCombinedTextureImageUnits) :
    setParameterTexture be s g nm tex =
      ({ s with
          m_params := (nm, be.getUniformLocation s.m_shaderProgram nm) :: s.m_params },
       (getMaxTextureUnits be g).2.1,
       Event.queryUniformLocation s.m_shaderProgram nm ::
         ((getMaxTextureUnits be g).2.2 ++
           [Event.errLine (ErrMsg.textureUnitsExceeded nm)])) := by
  simp [setParameterTexture, getParamLocation_miss be s nm hmiss hvalid, hprog, hvalid,
    hnewloc, hfst, hfull]

/-- Folding texture-set calls over names that all resolve to fresh, valid,
pairwise distinct locations, with the limit already memoized and room in the
unit budget for all of them: every binding is inserted; the program handle,
sentinel and globals are untouched; names not in the list stay uncached; and
the emitted events are exactly the location queries, one per name — no
diagnostics, no further limit query. -/
theorem setTextures_insert_phase (be : Backend) (tex : Texture) :
    ∀ (names : List String) (s : Shader) (g : Globals),
    s.m_shaderProgram ≠ 0 →
    g.maxUnitsCache = some be.maxCombinedTextureImageUnits →
    (∀ nm ∈ names, s.m_params.lookup nm = none) →
    (∀ nm ∈ names, be.getUniformLocation s.m_shaderProgram nm ≠ -1) →
    (∀ nm ∈ names,
      s.m_textures.lookup (be.getUniformLocation s.m_shaderProgram nm) = none) →
    (names.map (be.getUniformLocation s.m_shaderProgram)).Nodup →
    s.m_textures.length + names.length < sizeTOfGlint be.maxCombinedTextureImageUnits →
    (setTextures be tex names s g).1.m_shaderProgram = s.m_shaderProgram ∧
    (setTextures be tex names s g).1.m_currentTexture = s.m_currentTexture ∧
    (setTextures be tex names s g).1.m_textures.length =
      s.m_textures.length + names.length ∧
    (∀ nm ∈ names, (setTextures be tex names s g).1.m_textures.lookup
        (be.getUniformLocation s.m_shaderProgram nm) = some tex) ∧
    (∀ k, (∀ nm ∈ names, k ≠ be.getUniformLocation s.m_shaderProgram nm) →
      (setTextures be tex names s g).1.m_textures.lookup k = s.m_textures.lookup k) ∧
    (∀ nm0, s.m_params.lookup nm0 = none → nm0 ∉ names →
      (setTextures be tex names s g).1.m_params.lookup nm0 = none) ∧
    (setTextures be tex names s g).2.1 = g ∧
    (setTextures be tex names s g).2.2 =
      names.map (fun nm => Event.queryUniformLocation s.m_shaderProgram nm) := by
  intro names
  induction names with
  | nil =>
    intro s g _ _ _ _ _ _ _
    simp [setTextures]
  | cons nm rest ih =>
    intro s g hprog hcache hfresh hvalid hnew hnodup hroom
    have hmem : nm ∈ nm :: rest := List.mem_cons_self _ _
    have hnodup' : (∀ x ∈ rest,
        ¬ be.getUniformLocation s.m_shaderProgram x =
          be.getUniformLocation s.m_shaderProgram nm) ∧
        (rest.map (be.getUniformLocation s.m_shaderProgram)).Nodup := by
      simpa using hnodup
    have hloc_head : ∀ nm' ∈ rest,
        be.getUniformLocation s.m_shaderProgram nm' ≠
          be.getUniformLocation s.m_shaderProgram nm :=
      hnodup'.1
    have hne_head : ∀ nm' ∈ rest, nm' ≠ nm := by
      intro nm' hmem' heq
      exact hloc_head nm' hmem' (by rw [heq])
    have hroom1 : s.m_textures.length + 1 <
        sizeTOfGlint be.maxCombinedTextureImageUnits := by
      simp only [List.length_cons] at hroom
      omega
    have hstep := setParameterTexture_insert be s g nm tex hprog (hfresh nm hmem)
      (hvalid nm hmem) (hnew nm hmem)
      (by rw [getMaxTextureUnits_cached hcache]) hroom1
    rw [getMaxTextureUnits_cached hcache] at hstep
    have hfold : setTextures be tex (nm :: rest) s g =
        ((setTextures be tex rest
            { s with
                m_params := (nm, be.getUniformLocation s.m_shaderProgram nm) :: s.m_params
                m_textures := tableInsert s.m_textures
                  (be.getUniformLocation s.m_shaderProgram nm) tex } g).1,
         (setTextures be tex rest
            { s with
                m_params := (nm, be.getUniformLocation s.m_shaderProgram nm) :: s.m_params
                m_textures := tableInsert s.m_textures
                  (be.getUniformLocation s.m_shaderProgram nm) tex } g).2.1,
         Event.queryUniformLocation s.m_shaderProgram nm ::
           (setTextures be tex rest
              { s with
                  m_params := (nm, be.getUniformLocation s.m_shaderProgram nm) :: s.m_params
                  m_textures := tableInsert s.m_textures
                    (be.getUniformLocation s.m_shaderProgram nm) tex } g).2.2) := by
      simp only [setTextures, hstep, List.singleton_append]
    have hlen2 : (tableInsert s.m_textures
        (be.getUniformLocation s.m_shaderProgram nm) tex).length =
        s.m_textures.length + 1 :=
      tableInsert_length_new tex (hnew nm hmem)
    obtain ⟨ih1, ih2, ih3, ih4, ih5, ih6, ih7, ih8⟩ := ih
      { s with
          m_params := (nm, be.getUniformLocation s.m_shaderProgram nm) :: s.m_params
          m_textures := tableInsert s.m_textures
            (be.getUniformLocation s.m_shaderProgram nm) tex } g
      hprog hcache
      (by
        intro nm' hmem'
        exact (lookup_cons_ne (hne_head nm' hmem')).trans (hfresh nm' (by simp [hmem'])))
      (by
        intro nm' hmem'
        exact hvalid nm' (by simp [hmem']))
      (by
        intro nm' hmem'
        rw [tableInsert_lookup]
        simp only [hloc_head nm' hmem', if_false]
        exact hnew nm' (by simp [hmem']))
      (by simpa using hnodup'.2)
      (by
        rw [hlen2]
        simp only [List.length_cons] at hroom
        omega)
    refine ⟨?_, ?_, ?_, ?_, ?_, ?_, ?_, ?_⟩
    · rw [hfold]
      exact ih1
    · rw [hfold]
      exact ih2
    · rw [hfold]
      rw [ih3, hlen2]
      simp only [List.length_cons]
      omega
    · intro nm' hmem'
      rw [hfold]
      rcases List.mem_cons.mp hmem' with hh | hh
      · subst hh
        rw [ih5 (be.getUniformLocation s.m_shaderProgram nm')
            (fun nm2 hmem2 => Ne.symm (hloc_head nm2 hmem2))]
        rw [tableInsert_lookup]
        simp

      · exact ih4 nm' hh
    · intro k hk
      rw [hfold]
      rw [ih5 k (fun nm2 hmem2 => hk nm2 (by simp [hmem2]))]
      rw [tableInsert_lookup]
      simp only [hk nm hmem, if_false]
    · intro nm0 h0 hnot
      rw [hfold]
      refine ih6 nm0 ?_ (fun hmem2 => hnot (by simp [hmem2]))
      have hne0 : nm0 ≠ nm := fun heq => hnot (by simp [heq])
      exact (lookup_cons_ne hne0).trans h0
    · rw [hfold]
      exact ih7
    · rw [hfold]
      simp only [List.map_cons, List.cons.injEq, true_and]
      exact ih8

/-- The size_t cast is the identity on small nonnegative GLint values. -/
theorem sizeTOfGlint_ofNat {n : Nat} (h : n < 2 ^ 64) : sizeTOfGlint (n : Int) = n := by
  unfold sizeTOfGlint
  rw [Int.emod_eq_of_lt (by positivity) (by exact_mod_cast h)]
  simp

/-- Folding texture-set calls distributes over list append. -/
theorem setTextures_append (be : Backend) (tex : Texture) (l1 l2 : List String)
    (s : Shader) (g : Globals) :
    setTextures be tex (l1 ++ l2) s g =
      ((setTextures be tex l2 (setTextures be tex l1 s g).1
          (setTextures be tex l1 s g).2.1).1,
       (setTextures be tex l2 (setTextures be tex l1 s g).1
          (setTextures be tex l1 s g).2.1).2.1,
       (setTextures be tex l1 s g).2.2 ++
         (setTextures be tex l2 (setTextures be tex l1 s g).1
            (setTextures be tex l1 s g).2.1).2.2) := by
  induction l1 generalizing s g with
  | nil => simp [setTextures]
  | cons nm rest ih => simp [setTextures, ih, List.append_assoc]

/-- A single texture-set call grows the table only if the table size plus one
was strictly below the (memoized) combined texture-unit limit. -/
theorem setParameterTexture_insert_only_below_limit
    (be : Backend) (s : Shader) (g : Globals) (nm : String) (tex : Texture)
    (hsorted : tableSorted s.m_textures)
    (hgrow : (setParameterTexture be s g nm tex).1.m_textures.length =
      s.m_textures.length + 1) :
    s.m_textures.length + 1 < sizeTOfGlint (getMaxTextureUnits be g).1 := by
  have hst := (getParamLocation_state be s nm).2.2
  by_cases hprog : s.m_shaderProgram ≠ 0
  · by_cases hloc : (getParamLocation be s nm).1 ≠ -1
    · rcases hl : s.m_textures.lookup (getParamLocation be s nm).1 with _ | w
      · by_cases hge : sizeTOfGlint (getMaxTextureUnits be g).1 ≤ s.m_textures.length + 1
        · exact absurd hgrow (by simp [setParameterTexture, hprog, hloc, hst, hl, hge])
        · exact not_le.mp hge
      · have hkeys := congrArg List.length (tableInsert_keys_replace (v := tex) hsorted hl)
        simp only [List.length_map] at hkeys
        exact absurd hgrow
          (by simp [setParameterTexture, hprog, hloc, hst, hl, hkeys])
    · exact absurd hgrow (by simp [setParameterTexture, hprog, hloc, hst])
  · exact absurd hgrow (by simp [setParameterTexture, hprog])

/-- Processing a nonempty list of fresh, valid, pairwise-distinct texture
uniforms from a just-compiled shader, starting with the limit not yet
memoized and room for all of them: every binding lands in the table, the
limit is queried exactly once, and no diagnostic is emitted. -/
theorem setTextures_front_phase (be : Backend) (tex : Texture) (p : Nat)
    (front : List String) (g : Globals)
    (hprog : p ≠ 0)
    (hcache : g.maxUnitsCache = none)
    (hnodup : (front.map (be.getUniformLocation p)).Nodup)
    (hvalid : ∀ nm ∈ front, be.getUniformLocation p nm ≠ -1)
    (hroom : front.length < sizeTOfGlint be.maxCombinedTextureImageUnits)
    (hne : front ≠ []) :
    (setTextures be tex front ⟨p, -1, [], []⟩ g).1.m_shaderProgram = p ∧
    (setTextures be tex front ⟨p, -1, [], []⟩ g).1.m_currentTexture = -1 ∧
    (setTextures be tex front ⟨p, -1, [], []⟩ g).1.m_textures.length = front.length ∧
    (∀ nm ∈ front, (setTextures be tex front ⟨p, -1, [], []⟩ g).1.m_textures.lookup
        (be.getUniformLocation p nm) = some tex) ∧
    (∀ k, (∀ nm ∈ front, k ≠ be.getUniformLocation p nm) →
      (setTextures be tex front ⟨p, -1, [], []⟩ g).1.m_textures.lookup k = none) ∧
    (∀ nm0, nm0 ∉ front →
      (setTextures be tex front ⟨p, -1, [], []⟩ g).1.m_params.lookup nm0 = none) ∧
    (setTextures be tex front ⟨p, -1, [], []⟩ g).2.1 =
      { g with maxUnitsCache := some be.maxCombinedTextureImageUnits } ∧
    (setTextures be tex front ⟨p, -1, [], []⟩ g).2.2.count
      Event.getIntegervMaxUnits = 1 ∧
    (∀ msg, Event.errLine msg ∉ (setTextures be tex front ⟨p, -1, [], []⟩ g).2.2) := by
  cases front with
  | nil => exact absurd rfl hne
  | cons nm0 front1 =>
    have hmem0 : nm0 ∈ nm0 :: front1 := List.mem_cons_self _ _
    have hnodup' : (∀ x ∈ front1,
        ¬ be.getUniformLocation p x = be.getUniformLocation p nm0) ∧
        (front1.map (be.getUniformLocation p)).Nodup := by
      simpa using hnodup
    have hroom1 : (0 : Nat) + 1 < sizeTOfGlint be.maxCombinedTextureImageUnits := by
      simp only [List.length_cons] at hroom
      omega
    have hstep := setParameterTexture_insert be ⟨p, -1, [], []⟩ g nm0 tex hprog rfl
      (hvalid nm0 hmem0) rfl (by rw [getMaxTextureUnits_first hcache]) (by simpa using hroom1)
    rw [getMaxTextureUnits_first hcache] at hstep
    have hfold : setTextures be tex (nm0 :: front1) ⟨p, -1, [], []⟩ g =
        ((setTextures be tex front1
            ⟨p, -1, [(be.getUniformLocation p nm0, tex)],
              [(nm0, be.getUniformLocation p nm0)]⟩
            { g with maxUnitsCache := some be.maxCombinedTextureImageUnits }).1,
         (setTextures be tex front1
            ⟨p, -1, [(be.getUniformLocation p nm0, tex)],
              [(nm0, be.getUniformLocation p nm0)]⟩
            { g with maxUnitsCache := some be.maxCombinedTextureImageUnits }).2.1,
         Event.queryUniformLocation p nm0 :: Event.getIntegervMaxUnits ::
           (setTextures be tex front1
              ⟨p, -1, [(be.getUniformLocation p nm0, tex)],
                [(nm0, be.getUniformLocation p nm0)]⟩
              { g with maxUnitsCache := some be.maxCombinedTextureImageUnits }).2.2) := by
      simp only [setTextures, hstep, tableInsert]
      rfl
    obtain ⟨ih1, ih2, ih3, ih4, ih5, ih6, ih7, ih8⟩ := setTextures_insert_phase be tex front1
      ⟨p, -1, [(be.getUniformLocation p nm0, tex)], [(nm0, be.getUniformLocation p nm0)]⟩
      { g with maxUnitsCache := some be.maxCombinedTextureImageUnits }
      hprog rfl
      (by
        intro nm' hmem'
        have hne' : nm' ≠ nm0 := by
          intro heq
          exact hnodup'.1 nm' hmem' (by rw [heq])
        exact (lookup_cons_ne hne').trans rfl)
      (by
        intro nm' hmem'
        exact hvalid nm' (by simp [hmem']))
      (by
        intro nm' hmem'
        exact lookup_cons_ne (hnodup'.1 nm' hmem'))
      hnodup'.2
      (by
        simp only [List.length_cons, List.length_singleton, List.length_nil] at hroom ⊢
        omega)
    refine ⟨?_, ?_, ?_, ?_, ?_, ?_, ?_, ?_, ?_⟩
    · rw [hfold]
      exact ih1
    · rw [hfold]
      exact ih2
    · rw [hfold]
      rw [ih3]
      simp only [List.length_cons, List.length_singleton, List.length_nil]
      omega
    · intro nm' hmem'
      rw [hfold]
      rcases List.mem_cons.mp hmem' with hh | hh
      · subst hh
        rw [ih5 (be.getUniformLocation p nm')
            (fun nm2 hmem2 => Ne.symm (hnodup'.1 nm2 hmem2))]
        simp
      · exact ih4 nm' hh
    · intro k hk
      rw [hfold]
      rw [ih5 k (fun nm2 hmem2 => hk nm2 (by simp [hmem2]))]
      exact lookup_cons_ne (hk nm0 hmem0)
    · intro nm1 hnot
      rw [hfold]
      refine ih6 nm1 ?_ (fun hmem2 => hnot (by simp [hmem2]))
      have hne1 : nm1 ≠ nm0 := fun heq => hnot (by simp [heq])
      exact (lookup_cons_ne hne1).trans rfl
    · rw [hfold]
      exact ih7
    · rw [hfold, ih8]
      simp [List.count_cons, List.count_eq_zero]
    · intro msg
      rw [hfold, ih8]
      simp

/-- A one-element fold is a single set call. -/
theorem setTextures_singleton (be : Backend) (tex : Texture) (nm : String)
    (s : Shader) (g : Globals) :
    setTextures be tex [nm] s g = setParameterTexture be s g nm tex := by
  simp [setTextures]

/-- C3 (amended): on a freshly compiled shader, setting N+1 texture uniforms
with distinct names resolving to distinct valid locations, where N+1 is the
backend's combined texture-unit limit: the first N calls insert their
bindings and emit no diagnostic, the last call reports the resource-limit
error and leaves the texture table at size N with the program handle and
sentinel untouched — though the failing call still records the newly
resolved name in the uniform-location cache; a binding is inserted only when
the table size plus one is strictly below the limit, and the limit is
queried from the backend at most once in the whole run. -/
theorem setTextures_unit_exhaustion
    (be : Backend) (tex : Texture) (p N : Nat) (front : List String) (last : String)
    (g : Globals)
    (hprog : p ≠ 0)
    (hcache : g.maxUnitsCache = none)
    (hmax : be.maxCombinedTextureImageUnits = (N : Int) + 1)
    (hlen : front.length = N)
    (hN : N + 1 < 2 ^ 64)
    (hnodup : ((front ++ [last]).map (be.getUniformLocation p)).Nodup)
    (hvalid : ∀ nm ∈ front ++ [last], be.getUniformLocation p nm ≠ -1) :
    (setTextures be tex (front ++ [last]) ⟨p, -1, [], []⟩ g).1.m_textures.length = N ∧
    (∀ nm ∈ front, (setTextures be tex (front ++ [last]) ⟨p, -1, [], []⟩ g).1.m_textures.lookup
        (be.getUniformLocation p nm) = some tex) ∧
    (setTextures be tex (front ++ [last]) ⟨p, -1, [], []⟩ g).1.m_textures.lookup
        (be.getUniformLocation p last) = none ∧
    (setTextures be tex (front ++ [last]) ⟨p, -1, [], []⟩ g).1.m_shaderProgram = p ∧
    (setTextures be tex (front ++ [last]) ⟨p, -1, [], []⟩ g).1.m_currentTexture = -1 ∧
    (setTextures be tex (front ++ [last]) ⟨p, -1, [], []⟩ g).2.2.count
      (Event.errLine (ErrMsg.textureUnitsExceeded last)) = 1 ∧
    (∀ msg, Event.errLine msg ∈ (setTextures be tex (front ++ [last]) ⟨p, -1, [], []⟩ g).2.2 →
      msg = ErrMsg.textureUnitsExceeded last) ∧
    (setTextures be tex (front ++ [last]) ⟨p, -1, [], []⟩ g).2.2.count
      Event.getIntegervMaxUnits ≤ 1 ∧
    (setTextures be tex (front ++ [last]) ⟨p, -1, [], []⟩ g).1.m_params.lookup last =
      some (be.getUniformLocation p last) ∧
    (∀ (s' : Shader) (g' : Globals) (nm : String) (t : Texture),
      tableSorted s'.m_textures →
      (setParameterTexture be s' g' nm t).1.m_textures.length =
        s'.m_textures.length + 1 →
      s'.m_textures.length + 1 < sizeTOfGlint (getMaxTextureUnits be g').1) := by
  have hsz : sizeTOfGlint be.maxCombinedTextureImageUnits = N + 1 := by
    rw [hmax]
    have hcast : ((N : Int) + 1) = ((N + 1 : Nat) : Int) := by push_cast; ring
    rw [hcast]
    exact sizeTOfGlint_ofNat hN
  have hvf : ∀ nm ∈ front, be.getUniformLocation p nm ≠ -1 :=
    fun nm h => hvalid nm (by simp [h])
  have hvl : be.getUniformLocation p last ≠ -1 := hvalid last (by simp)
  rw [List.map_append] at hnodup
  have hnodupf : (front.map (be.getUniformLocation p)).Nodup := hnodup.of_append_left
  have hdisj := List.disjoint_of_nodup_append hnodup
  have hlast_not : be.getUniformLocation p last ∉
      front.map (be.getUniformLocation p) :=
    fun hmem => hdisj hmem (by simp)
  have hlast_nin : last ∉ front := fun hmem => hlast_not (List.mem_map_of_mem _ hmem)
  have hguard := fun (s' : Shader) (g' : Globals) (nm : String) (t : Texture)
      (hs : tableSorted s'.m_textures)
      (hg : (setParameterTexture be s' g' nm t).1.m_textures.length =
        s'.m_textures.length + 1) =>
    setParameterTexture_insert_only_below_limit be s' g' nm t hs hg
  cases front with
  | nil =>
    have hN0 : N = 0 := by simpa using hlen.symm
    subst hN0
    have hreject := setParameterTexture_reject be ⟨p, -1, [], []⟩ g last tex hprog rfl
      hvl rfl (by rw [getMaxTextureUnits_first hcache])
      (by rw [hsz]; exact le_refl 1)
    rw [getMaxTextureUnits_first hcache] at hreject
    have hfold : setTextures be tex ([] ++ [last]) (⟨p, -1, [], []⟩ : Shader) g =
        setParameterTexture be ⟨p, -1, [], []⟩ g last tex := by
      rw [List.nil_append, setTextures_singleton]
    rw [hfold, hreject]
    refine ⟨rfl, by simp, rfl, rfl, rfl, by simp, ?_, by simp, by simp, hguard⟩
    intro msg hmem
    simpa using hmem
  | cons nm0 front1 =>
    obtain ⟨f1, f2, f3, f4, f5, f6, f7, f8, f9⟩ :=
      setTextures_front_phase be tex p (nm0 :: front1) g hprog hcache hnodupf hvf
        (by rw [hsz, hlen]; omega) (by simp)
    have hprogF : (setTextures be tex (nm0 :: front1) ⟨p, -1, [], []⟩ g).1.m_shaderProgram ≠ 0 := by
      rw [f1]; exact hprog
    have hmissF : (setTextures be tex (nm0 :: front1) ⟨p, -1, [], []⟩ g).1.m_params.lookup
        last = none := f6 last hlast_nin
    have hlocF : ∀ nm', be.getUniformLocation
        (setTextures be tex (nm0 :: front1) ⟨p, -1, [], []⟩ g).1.m_shaderProgram nm' =
        be.getUniformLocation p nm' := by
      intro nm'
      rw [f1]
    have hnewF : (setTextures be tex (nm0 :: front1) ⟨p, -1, [], []⟩ g).1.m_textures.lookup
        (be.getUniformLocation p last) = none := by
      refine f5 (be.getUniformLocation p last) ?_
      intro nm' hmem' heq
      exact hlast_not (heq ▸ List.mem_map_of_mem _ hmem')
    have hfstF : (getMaxTextureUnits be
        (setTextures be tex (nm0 :: front1) ⟨p, -1, [], []⟩ g).2.1).1 =
        be.maxCombinedTextureImageUnits := by
      rw [f7, getMaxTextureUnits_cached rfl]
    have hfullF : (setTextures be tex (nm0 :: front1) ⟨p, -1, [], []⟩ g).1.m_textures.length
        + 1 ≥ sizeTOfGlint be.maxCombinedTextureImageUnits := by
      rw [f3, hlen, hsz]
    have hreject := setParameterTexture_reject be
      (setTextures be tex (nm0 :: front1) ⟨p, -1, [], []⟩ g).1
      (setTextures be tex (nm0 :: front1) ⟨p, -1, [], []⟩ g).2.1
      last tex hprogF hmissF (by rw [hlocF]; exact hvl)
      (by rw [hlocF]; exact hnewF) hfstF hfullF
    have hALL : setTextures be tex ((nm0 :: front1) ++ [last]) ⟨p, -1, [], []⟩ g =
        ((setParameterTexture be
            (setTextures be tex (nm0 :: front1) ⟨p, -1, [], []⟩ g).1
            (setTextures be tex (nm0 :: front1) ⟨p, -1, [], []⟩ g).2.1 last tex).1,
         (setParameterTexture be
            (setTextures be tex (nm0 :: front1) ⟨p, -1, [], []⟩ g).1
            (setTextures be tex (nm0 :: front1) ⟨p, -1, [], []⟩ g).2.1 last tex).2.1,
         (setTextures be tex (nm0 :: front1) ⟨p, -1, [], []⟩ g).2.2 ++
           (setParameterTexture be
              (setTextures be tex (nm0 :: front1) ⟨p, -1, [], []⟩ g).1
              (setTextures be tex (nm0 :: front1) ⟨p, -1, [], []⟩ g).2.1 last tex).2.2) := by
      rw [setTextures_append, setTextures_singleton]
    have hmx2 : (getMaxTextureUnits be
        (setTextures be tex (nm0 :: front1) ⟨p, -1, [], []⟩ g).2.1).2.2 =
        ([] : List Event) := by
      rw [f7, getMaxTextureUnits_cached rfl]
    rw [hALL, hreject]
    refine ⟨?_, ?_, ?_, ?_, ?_, ?_, ?_, ?_, ?_, hguard⟩
    · simpa using f3.trans hlen
    · intro nm' hmem'
      simpa using f4 nm' hmem'
    · simpa using hnewF
    · simpa using f1
    · simpa using f2
    · rw [List.count_append]
      rw [List.count_eq_zero.mpr (f9 (ErrMsg.textureUnitsExceeded last))]
      simp [List.count_cons, hmx2]
    · intro msg hmem
      simp only [List.mem_append] at hmem
      rcases hmem with hmem | hmem
      · exact absurd hmem (f9 msg)
      · simpa [hmx2] using hmem
    · rw [List.count_append, f8]
      simp [hmx2]
    · rw [hlocF]
      simp

/-- C3 counterexample: with the unit limit 2 (N = 1) and names "a", "b"
resolving to distinct valid locations 1, 2, the second (failing) call leaves
the texture table untouched and reports the resource-limit error — but it is
not free of other state effects: it appends the freshly resolved name "b" to
the uniform-location cache, so the rest of the instance state is not
unaffected, contrary to the claim. -/
theorem setTextures_unit_exhaustion_counterexample :
    ((setParameterTexture beC3
        (setTextures beC3 9 ["a"] ⟨7, -1, [], []⟩ Globals.initial).1
        (setTextures beC3 9 ["a"] ⟨7, -1, [], []⟩ Globals.initial).2.1
        "b" 9).1.m_textures =
      (setTextures beC3 9 ["a"] ⟨7, -1, [], []⟩ Globals.initial).1.m_textures) ∧
    ((setParameterTexture beC3
        (setTextures beC3 9 ["a"] ⟨7, -1, [], []⟩ Globals.initial).1
        (setTextures beC3 9 ["a"] ⟨7, -1, [], []⟩ Globals.initial).2.1
        "b" 9).2.2.count (Event.errLine (ErrMsg.textureUnitsExceeded "b")) = 1) ∧
    ((setParameterTexture beC3
        (setTextures beC3 9 ["a"] ⟨7, -1, [], []⟩ Globals.initial).1
        (setTextures beC3 9 ["a"] ⟨7, -1, [], []⟩ Globals.initial).2.1
        "b" 9).1.m_params ≠
      (setTextures beC3 9 ["a"] ⟨7, -1, [], []⟩ Globals.initial).1.m_params) := by
  decide

/-- C3 witness: the amended theorem at the concrete two-unit backend with
names "a" and "b": the table ends at size 1 and exactly one resource-limit
error is reported, by the last call. -/
theorem setTextures_unit_exhaustion_witness :
    (setTextures beC3 9 (["a"] ++ ["b"]) ⟨7, -1, [], []⟩
        Globals.initial).1.m_textures.length = 1 ∧
    (setTextures beC3 9 (["a"] ++ ["b"]) ⟨7, -1, [], []⟩ Globals.initial).2.2.count
      (Event.errLine (ErrMsg.textureUnitsExceeded "b")) = 1 :=
  ⟨(setTextures_unit_exhaustion beC3 9 7 1 ["a"] "b" Globals.initial (by decide) rfl
      (by decide) rfl (by norm_num) (by decide) (by decide)).1,
   (setTextures_unit_exhaustion beC3 9 7 1 ["a"] "b" Globals.initial (by decide) rfl
      (by decide) rfl (by norm_num) (by decide) (by decide)).2.2.2.2.2.1⟩

end SfmlShader
